import Mathlib

/-!
Shallow embedding of the `hsoundworks-cli-audio-tools` repository.

The repository is a thin orchestration layer over external DSP libraries:
file discovery by extension, a BPM pipeline, SQLite persistence of
(file_name, sample_rate, duration_seconds) records, and CSV export.
We embed the orchestration logic: external decoder calls (`librosa.load`,
`librosa.beat.tempo`, ...) become oracle fields of an `AudioLib` structure,
the file system becomes an `FS` structure, the SQLite table becomes an
explicit list of rows, and Python numeric values become a `PyVal` type so
that the `isinstance(x, (int, float))` validation in the source can be
expressed. Python floats are modelled as rationals; `round` is modelled as
round-half-to-even, matching Python's rounding of exactly representable
values.
-/

namespace HSound

/-- The floor of a rational, computed by flooring division of the
numerator by the (positive) denominator. -/
def ratFloor (x : ℚ) : ℤ := Int.fdiv x.num (x.den : ℤ)

/-- The ceiling of a rational. -/
def ratCeil (x : ℚ) : ℤ := -(Int.fdiv (-x.num) (x.den : ℤ))

/-- Python's `round(x)` (banker's rounding, ties to even), on rationals. -/
def pyRound (x : ℚ) : ℤ :=
  let f : ℤ := ratFloor x
  let r : ℚ := x - (f : ℚ)
  if r < 1/2 then f
  else if 1/2 < r then f + 1
  else if f % 2 = 0 then f else f + 1

/-- Python's `round(x, 1)`: round to one decimal place (ties to even). -/
def roundTo1 (x : ℚ) : ℚ := (pyRound (x * 10) : ℚ) / 10

/-- Python's `int(x)` on a numeric value: truncation toward zero. -/
def pyInt (x : ℚ) : ℤ := if 0 ≤ x then ratFloor x else ratCeil x

/-- A Python runtime value, as far as the validation code inspects it:
`isinstance(x, (int, float))` and comparisons with `0`. -/
inductive PyVal where
  | int : ℤ → PyVal
  | float : ℚ → PyVal
  | str : String → PyVal
  | pyNone : PyVal
deriving DecidableEq, Repr

/-- `isinstance(v, (int, float))`. -/
def PyVal.isNum : PyVal → Bool
  | .int _ => true
  | .float _ => true
  | _ => false

/-- The numeric content of a value (junk `0` on non-numerics). -/
def PyVal.toRat : PyVal → ℚ
  | .int n => (n : ℚ)
  | .float q => q
  | _ => 0

/-- The source's validation predicate:
`isinstance(v, (int, float)) and v > 0`. -/
def PyVal.validPos (v : PyVal) : Prop := v.isNum = true ∧ 0 < v.toRat

instance (v : PyVal) : Decidable v.validPos := by
  unfold PyVal.validPos; infer_instance

/-- Splitting a character list at `/` separators. -/
def splitSlash : List Char → List (List Char)
  | [] => [[]]
  | c :: cs =>
    let r := splitSlash cs
    if c = '/' then [] :: r
    else match r with
      | [] => [[c]]
      | h :: t => (c :: h) :: t

/-- `pathlib.Path(s).name`: the final non-empty path component. -/
def pathName (s : String) : String :=
  String.mk (((splitSlash s.data).filter (fun c => c ≠ [])).getLast?.getD [])

/-- `os.path.join(dir, file)` for a relative file name. -/
def joinPath (dir file : String) : String := dir ++ "/" ++ file

/-- The file-system facts the orchestration code queries. `listdir`
returns `none` when `os.listdir` raises (`PermissionError` / `OSError`). -/
structure FS where
  pathExists : String → Bool
  isfile : String → Bool
  isdir : String → Bool
  readable : String → Bool
  getsize : String → ℕ
  listdir : String → Option (List String)

/-- The external decoder oracle. `load p` is `none` when `librosa.load`
raises or yields no data object, and `some n` when it returns an audio
buffer of `n` samples. `tempo` is `librosa.beat.tempo(y=y, sr=sr)[0]`,
`sampleRate` and `duration` the values `librosa` reports for the file. -/
structure AudioLib where
  load : String → Option ℕ
  tempo : String → ℚ
  sampleRate : String → ℤ
  duration : String → ℚ

/-- One row of the `audio_files` SQLite table
`(id INTEGER PRIMARY KEY AUTOINCREMENT, file_name, sample_rate,
duration_seconds)`. -/
structure AudioRow where
  id : ℕ
  file_name : String
  sample_rate : ℤ
  duration_seconds : ℚ
deriving DecidableEq, Repr

/-- The `audio_files` table plus the autoincrement counter. -/
structure DB where
  nextId : ℕ
  rows : List AudioRow
deriving DecidableEq, Repr

/-- `setup_database` on a fresh database file: an empty table, with the
autoincrement counter starting at 1. -/
def setup_database : DB := ⟨1, []⟩

/-- `save_to_database(file_path, sample_rate, duration)` from
`database/manager.py`. `dbOk` models absence of an `sqlite3.Error`.
The `INSERT OR REPLACE` statement appends a fresh row: the table has no
UNIQUE constraint on `file_name` and the autoincrement `id` is never
supplied, so no conflict can arise and `OR REPLACE` never fires.
The `Path(file_path).exists()` check in the source only prints a warning
and execution continues either way, so it does not appear in the result. -/
def save_to_database (fs : FS) (dbOk : Bool) (db : DB)
    (file_path : String) (sample_rate duration : PyVal) : Bool × DB :=
  if file_path = "" then (false, db)
  else if ¬ sample_rate.validPos then (false, db)
  else if ¬ duration.validPos then (false, db)
  else if dbOk then
    let d := roundTo1 duration.toRat
    let file_name := pathName file_path
    (true, ⟨db.nextId + 1,
            db.rows ++ [⟨db.nextId, file_name, pyInt sample_rate.toRat, d⟩]⟩)
  else (false, db)

/-- `view_database()` from `database/manager.py`: returns `True` and
prints every row; we model the printed rows as the second component. -/
def view_database (db : DB) : Bool × List (String × ℤ × ℚ) :=
  (true, db.rows.map (fun r => (r.file_name, r.sample_rate, r.duration_seconds)))

/-- Insertion into a list sorted by `file_name` (sqlite `ORDER BY
file_name` on TEXT compares UTF-8 bytes, i.e. code points). -/
def insertByName (r : AudioRow) : List AudioRow → List AudioRow
  | [] => [r]
  | x :: xs => if r.file_name ≤ x.file_name then r :: x :: xs
               else x :: insertByName r xs

/-- Sorting by `file_name`, modelling the `ORDER BY file_name` clause. -/
def sortByName (rs : List AudioRow) : List AudioRow :=
  rs.foldr insertByName []

/-- The content of the CSV file written by `export_to_csv`. -/
structure ExportCsv where
  header : List String
  rows : List (String × ℤ × ℚ)
deriving DecidableEq, Repr

/-- `export_to_csv(output_file)` from `database/manager.py`. `ioOk`
models the failure paths before and during writing (empty output name,
`mkdir` failure, permission denied); `none` is a `False` return. The
function also returns `False` when the table is empty. -/
def export_to_csv (ioOk : Bool) (db : DB) : Option ExportCsv :=
  if ¬ ioOk then none
  else if db.rows = [] then none
  else some ⟨["File Name", "Sample Rate (Hz)", "Duration (seconds)"],
             (sortByName db.rows).map
               (fun r => (r.file_name, r.sample_rate, r.duration_seconds))⟩

/-- The `AUDIO_EXTENSIONS` tuple of `analyzers/bpm.py`. -/
def AUDIO_EXTENSIONS : List String := [".mp3", ".wav", ".flac", ".ogg"]

/-- Python's `s.lower()` (ASCII case folding, as in the file names the
code handles). -/
def pyLower (s : String) : String := String.mk (s.data.map Char.toLower)

/-- Python's `s.endswith(t)`. -/
def pyEndsWith (s t : String) : Bool := List.isSuffixOf t.data s.data

/-- `file_path.lower().endswith(AUDIO_EXTENSIONS)`. -/
def hasAudioExt (s : String) : Bool :=
  AUDIO_EXTENSIONS.any (fun e => pyEndsWith (pyLower s) e)

/-- `MAX_BPM` from `analyzers/bpm.py` (`MIN_BPM` is 0). -/
def MAX_BPM : ℚ := 300

/-- `calculate_bpm(file_path)` from `analyzers/bpm.py`. Every failure
(missing file, bad extension, empty file, decoder exception, empty audio
data) is caught in the source and turned into a printed message and a
`None` return, modelled as `none`. The BPM range sanity check
(`tempo <= MIN_BPM or tempo > MAX_BPM`) only prints a warning, so it does
not affect the returned value `round(tempo)`. -/
def calculate_bpm (fs : FS) (lib : AudioLib) (file_path : String) : Option ℤ :=
  if ¬ fs.isfile file_path then none
  else if ¬ hasAudioExt file_path then none
  else if fs.getsize file_path = 0 then none
  else match lib.load file_path with
    | none => none
    | some n => if n = 0 then none else some (pyRound (lib.tempo file_path))

/-- The collection loop of `discover_audio_files`: for each filename,
`bpm = calculate_bpm(full_path)`, and the pair is appended only when
`if bpm:` holds, i.e. the result is neither `None` nor `0`. -/
def collectBpms (fs : FS) (lib : AudioLib) (folder_path : String) :
    List String → List (String × ℤ)
  | [] => []
  | filename :: rest =>
    match calculate_bpm fs lib (joinPath folder_path filename) with
    | some bpm =>
        if bpm ≠ 0 then (filename, bpm) :: collectBpms fs lib folder_path rest
        else collectBpms fs lib folder_path rest
    | none => collectBpms fs lib folder_path rest

/-- `discover_audio_files(folder_path)` from `analyzers/bpm.py`. -/
def discover_audio_files (fs : FS) (lib : AudioLib) (folder_path : String) :
    List (String × ℤ) :=
  if ¬ fs.pathExists folder_path then []
  else if ¬ fs.isdir folder_path then []
  else if ¬ fs.readable folder_path then []
  else match fs.listdir folder_path with
    | none => []
    | some files =>
      let audio_files := files.filter (fun f => hasAudioExt f)
      if audio_files = [] then []
      else collectBpms fs lib folder_path audio_files

/-- The content of the CSV file written by `csv_writing`. -/
structure BpmCsv where
  header : List String
  rows : List (String × ℤ)
deriving DecidableEq, Repr

/-- `csv_writing(arg, results_list)` from `analyzers/bpm.py`: `none`
models a `False` return (empty results, or an I/O failure modelled by
`ioOk = false`); `some` carries the written file content. -/
def csv_writing (ioOk : Bool) (results_list : List (String × ℤ)) :
    Option BpmCsv :=
  if results_list = [] then none
  else if ¬ ioOk then none
  else some ⟨["filename", "bpm"], results_list⟩

/-- `save_to_database` from `main.py` (the older duplicate): no argument
validation, `sqlite3.DatabaseError` caught (modelled by `dbOk = false`
leaving the table unchanged), duration rounded to 1 decimal place,
implicit `None` return. -/
def save_to_database_main (dbOk : Bool) (db : DB) (file_path : String)
    (sample_rate : ℤ) (duration : ℚ) : DB :=
  if dbOk then
    ⟨db.nextId + 1,
     db.rows ++ [⟨db.nextId, pathName file_path, sample_rate, roundTo1 duration⟩]⟩
  else db

/-- `audio_file_checker(file_path, ...)` from `main.py`. The very first
statement is `y, sr = librosa.load(file_path, sr=None, mono=False)` with
no prior validation and no enclosing `try`, so a decoder exception
(e.g. for a missing file) propagates to the caller: modelled as
`Except.error file_path`. On success the function prints the info and,
when `save_db` is set, calls `main.py`'s `save_to_database`; plotting and
feature extraction have no effect on the state we model. -/
def audio_file_checker (lib : AudioLib) (dbOk : Bool) (db : DB)
    (file_path : String) (save_db : Bool) : Except String DB :=
  match lib.load file_path with
  | none => Except.error file_path
  | some _ =>
    if save_db then
      Except.ok (save_to_database_main dbOk db file_path
        (lib.sampleRate file_path) (lib.duration file_path))
    else Except.ok db

/-- The `SUPPORTED_FORMATS` set of `converters/format.py`. -/
def SUPPORTED_FORMATS : List String := ["wav", "flac", "ogg", "mp3", "aiff", "m4a"]

/-- Python's `s.strip(".")`: drop leading and trailing `.` characters. -/
def pyStripDots (s : String) : String :=
  String.mk (((s.data.dropWhile (fun c => c = '.')).reverse.dropWhile
    (fun c => c = '.')).reverse)

/-- The writing environment of `convert_audio`: `mkdirOk` models the
output-directory creation, `writableOut` the `os.access(output_dir, W_OK)`
check, `writeOk` a successful `sf.write` plus the size verification. -/
structure ConvEnv where
  mkdirOk : Bool
  writableOut : Bool
  writeOk : Bool

/-- `convert_audio(file_path, output_dir, target_format)` from
`converters/format.py`: every validation failure and every caught
exception returns `False`. -/
def convert_audio (fs : FS) (lib : AudioLib) (env : ConvEnv)
    (file_path output_dir target_format : String) : Bool :=
  if file_path = "" then false
  else if output_dir = "" then false
  else if target_format = "" then false
  else if ¬ (pyStripDots (pyLower target_format)) ∈ SUPPORTED_FORMATS then false
  else if ¬ fs.pathExists file_path then false
  else if ¬ fs.isfile file_path then false
  else if ¬ fs.readable file_path then false
  else if ¬ env.mkdirOk then false
  else if ¬ env.writableOut then false
  else match lib.load file_path with
    | none => false
    | some n =>
      if n = 0 then false
      else if lib.sampleRate file_path ≤ 0 then false
      else env.writeOk

/-- One recorded call to `save_to_database` (from `database/manager.py`). -/
structure SaveCall where
  dbOk : Bool
  path : String
  sr : PyVal
  dur : PyVal

/-- Run a sequence of `save_to_database` calls against a database. -/
def runSaves (fs : FS) (db : DB) : List SaveCall → DB
  | [] => db
  | c :: cs => runSaves fs (save_to_database fs c.dbOk db c.path c.sr c.dur).2 cs

/-- The number of table rows carrying a given `file_name`. -/
def countByName (db : DB) (name : String) : ℕ :=
  (db.rows.filter (fun r => r.file_name = name)).length

/-- A file system on which nothing exists and every folder read fails. -/
def fs0 : FS :=
  ⟨fun _ => false, fun _ => false, fun _ => false, fun _ => false,
   fun _ => 0, fun _ => none⟩

/-- A decoder oracle on which every load raises / yields nothing. -/
def lib0 : AudioLib := ⟨fun _ => none, fun _ => 0, fun _ => 0, fun _ => 0⟩

/-- A file system with one readable folder containing one readable,
non-empty file `a.wav`. -/
def fs1 : FS :=
  ⟨fun _ => true, fun _ => true, fun _ => true, fun _ => true,
   fun _ => 1, fun _ => some ["a.wav"]⟩

/-- A decoder oracle that loads one sample everywhere and estimates a
tempo of 500 BPM (outside the sanity range (0, 300]). -/
def lib1 : AudioLib :=
  ⟨fun _ => some 1, fun _ => 500, fun _ => 44100, fun _ => 1⟩

theorem ratFloor_nonneg {x : ℚ} (h : 0 ≤ x) : 0 ≤ ratFloor x := by
  have hnum : 0 ≤ x.num := Rat.num_nonneg.mpr h
  have hden : (0 : ℤ) ≤ (x.den : ℤ) := Int.ofNat_nonneg x.den
  rw [ratFloor, Int.fdiv_eq_ediv _ hden]
  exact Int.ediv_nonneg hnum hden

theorem pyRound_nonneg {x : ℚ} (h : 0 ≤ x) : 0 ≤ pyRound x := by
  have hf : 0 ≤ ratFloor x := ratFloor_nonneg h
  simp only [pyRound]
  split
  · exact hf
  · split
    · omega
    · split <;> omega

theorem roundTo1_nonneg {x : ℚ} (h : 0 ≤ x) : 0 ≤ roundTo1 x := by
  have h10 : 0 ≤ x * 10 := by positivity
  have hr : 0 ≤ pyRound (x * 10) := pyRound_nonneg h10
  have : (0 : ℚ) ≤ (pyRound (x * 10) : ℚ) := Int.cast_nonneg.mpr hr
  unfold roundTo1
  positivity

theorem pyInt_nonneg {x : ℚ} (h : 0 ≤ x) : 0 ≤ pyInt x := by
  unfold pyInt
  rw [if_pos h]
  exact ratFloor_nonneg h

theorem mem_insertByName {a r : AudioRow} {l : List AudioRow} :
    a ∈ insertByName r l ↔ a = r ∨ a ∈ l := by
  induction l with
  | nil => simp [insertByName]
  | cons x xs ih =>
    rw [insertByName]
    split
    · simp [List.mem_cons]
    · simp only [List.mem_cons, ih]
      tauto

theorem mem_sortByName {a : AudioRow} {l : List AudioRow} :
    a ∈ sortByName l ↔ a ∈ l := by
  induction l with
  | nil => simp [sortByName]
  | cons x xs ih =>
    simp only [sortByName, List.foldr_cons] at *
    rw [mem_insertByName, ih]
    simp [List.mem_cons]

theorem mem_collectBpms {fs : FS} {lib : AudioLib} {fp : String}
    {pr : String × ℤ} :
    ∀ {l : List String}, pr ∈ collectBpms fs lib fp l →
      pr.1 ∈ l ∧ calculate_bpm fs lib (joinPath fp pr.1) = some pr.2 ∧
        pr.2 ≠ 0 := by
  intro l
  induction l with
  | nil => intro h; simp [collectBpms] at h
  | cons f rest ih =>
    intro h
    rw [collectBpms] at h
    cases hcb : calculate_bpm fs lib (joinPath fp f) with
    | none =>
      rw [hcb] at h
      dsimp only at h
      obtain ⟨h1, h2, h3⟩ := ih h
      exact ⟨List.mem_cons_of_mem _ h1, h2, h3⟩
    | some bpm =>
      rw [hcb] at h
      dsimp only at h
      by_cases hz : bpm ≠ 0
      · rw [if_pos hz] at h
        rcases List.mem_cons.mp h with h | h
        · subst h
          exact ⟨List.mem_cons_self _ _, hcb, hz⟩
        · obtain ⟨h1, h2, h3⟩ := ih h
          exact ⟨List.mem_cons_of_mem _ h1, h2, h3⟩
      · rw [if_neg hz] at h
        obtain ⟨h1, h2, h3⟩ := ih h
        exact ⟨List.mem_cons_of_mem _ h1, h2, h3⟩

theorem save_to_database_success {fs : FS} {db : DB} {fp : String}
    {sr dur : PyVal} (h0 : fp ≠ "") (h1 : sr.validPos) (h2 : dur.validPos) :
    save_to_database fs true db fp sr dur =
      (true, ⟨db.nextId + 1,
        db.rows ++
          [⟨db.nextId, pathName fp, pyInt sr.toRat, roundTo1 dur.toRat⟩]⟩) := by
  simp [save_to_database, h0, h1, h2]

theorem save_to_database_false_iff {fs : FS} {dbOk : Bool} {db : DB}
    {fp : String} {sr dur : PyVal} :
    (save_to_database fs dbOk db fp sr dur).1 = false ↔
      fp = "" ∨ ¬ sr.validPos ∨ ¬ dur.validPos ∨ dbOk = false := by
  unfold save_to_database
  split_ifs with h1 h2 h3 h4 <;> simp_all

theorem save_to_database_invalid {fs : FS} {dbOk : Bool} {db : DB}
    {fp : String} {sr dur : PyVal} (h : ¬ sr.validPos ∨ ¬ dur.validPos) :
    save_to_database fs dbOk db fp sr dur = (false, db) := by
  unfold save_to_database
  rcases h with h | h
  · split_ifs <;> simp_all
  · split_ifs <;> simp_all

theorem save_to_database_dberr {fs : FS} {db : DB} {fp : String}
    {sr dur : PyVal} :
    save_to_database fs false db fp sr dur = (false, db) := by
  unfold save_to_database
  split_ifs <;> simp_all

theorem save_rows_preserve {fs : FS} {dbOk : Bool} {db : DB} {fp : String}
    {sr dur : PyVal}
    (h : ∀ r ∈ db.rows, 0 ≤ r.sample_rate ∧ 0 ≤ r.duration_seconds) :
    ∀ r ∈ (save_to_database fs dbOk db fp sr dur).2.rows,
      0 ≤ r.sample_rate ∧ 0 ≤ r.duration_seconds := by
  by_cases hsr : sr.validPos
  case neg => rw [save_to_database_invalid (Or.inl hsr)]; exact h
  by_cases hdur : dur.validPos
  case neg => rw [save_to_database_invalid (Or.inr hdur)]; exact h
  by_cases h0 : fp = ""
  · intro r hr
    simp only [save_to_database, if_pos h0] at hr
    exact h r hr
  cases dbOk with
  | false =>
    rw [save_to_database_dberr]
    exact h
  | true =>
    rw [save_to_database_success h0 hsr hdur]
    intro r hr
    rcases List.mem_append.mp hr with hr | hr
    · exact h r hr
    · rw [List.mem_singleton] at hr
      subst hr
      exact ⟨pyInt_nonneg hsr.2.le, roundTo1_nonneg hdur.2.le⟩

theorem runSaves_rows_nonneg (fs : FS) (calls : List SaveCall) :
    ∀ db : DB, (∀ r ∈ db.rows, 0 ≤ r.sample_rate ∧ 0 ≤ r.duration_seconds) →
      ∀ r ∈ (runSaves fs db calls).rows,
        0 ≤ r.sample_rate ∧ 0 ≤ r.duration_seconds := by
  induction calls with
  | nil => intro db h; exact h
  | cons c cs ih =>
    intro db h
    exact ih _ (save_rows_preserve h)

/-- C1 (code bug): the spec promises upsert semantics — a second
`save_to_database` call with the same basename should overwrite the
existing row — but the `audio_files` table has no UNIQUE constraint on
`file_name` and the `id` primary key is never supplied, so
`INSERT OR REPLACE` never encounters a conflict and simply appends.
Two successful saves of paths with basename `loop.wav` leave two rows
with that `file_name` in the table. -/
theorem save_twice_same_basename_duplicates :
    countByName
      (save_to_database fs0 true
        (save_to_database fs0 true setup_database "samples/loop.wav"
          (PyVal.int 44100) (PyVal.float 2)).2
        "loop.wav" (PyVal.int 48000) (PyVal.float 2)).2
      "loop.wav" = 2 := by
  with_unfolding_all rfl

/-- C2, counterexample: a successful save may store a row violating
`sample_rate > 0` and `duration_seconds > 0`. With `sample_rate = 0.5`
and `duration = 0.04` (both positive, so validation passes),
`int(sample_rate)` truncates to `0` and `round(duration, 1)` rounds to
`0.0`, and the call still returns `True`. -/
theorem save_small_values_store_zero :
    save_to_database fs0 true setup_database "a.wav"
      (PyVal.float (1/2)) (PyVal.float (1/25)) =
      (true, ⟨2, [⟨1, "a.wav", 0, 0⟩]⟩) := by
  with_unfolding_all rfl

/-- C2, amended: after any sequence of `save_to_database` calls starting
from a fresh database, every stored row satisfies `sample_rate ≥ 0` and
`duration_seconds ≥ 0` (the stored values are `int(sample_rate)` and
`round(duration, 1)`, which can be `0` for small positive inputs); and
the function returns `False` without touching the table whenever
`sample_rate` or `duration` is non-numeric or non-positive. -/
theorem saved_rows_nonneg :
    (∀ (fs : FS) (calls : List SaveCall) (r : AudioRow),
        r ∈ (runSaves fs setup_database calls).rows →
        0 ≤ r.sample_rate ∧ 0 ≤ r.duration_seconds)
    ∧ (∀ (fs : FS) (dbOk : Bool) (db : DB) (fp : String) (sr dur : PyVal),
        ¬ sr.validPos ∨ ¬ dur.validPos →
        save_to_database fs dbOk db fp sr dur = (false, db)) := by
  constructor
  · intro fs calls r hr
    exact runSaves_rows_nonneg fs calls setup_database (by simp [setup_database]) r hr
  · intro fs dbOk db fp sr dur h
    exact save_to_database_invalid h

/-- C2, witness: a concrete saved row has nonnegative fields, and a save
with a string sample rate is rejected. -/
theorem saved_rows_nonneg_witness :
    (0 ≤ (AudioRow.mk 1 (pathName "a.wav") (pyInt (PyVal.int 44100).toRat)
        (roundTo1 (PyVal.int 3).toRat)).sample_rate ∧
     0 ≤ (AudioRow.mk 1 (pathName "a.wav") (pyInt (PyVal.int 44100).toRat)
        (roundTo1 (PyVal.int 3).toRat)).duration_seconds) ∧
    save_to_database fs0 true setup_database "a.wav"
      (PyVal.str "fast") (PyVal.int 3) = (false, setup_database) := by
  constructor
  · apply saved_rows_nonneg.1 fs0 [⟨true, "a.wav", PyVal.int 44100, PyVal.int 3⟩]
    have hsr : (PyVal.int 44100).validPos :=
      of_decide_eq_true (by with_unfolding_all rfl)
    have hdur : (PyVal.int 3).validPos :=
      of_decide_eq_true (by with_unfolding_all rfl)
    have h0 : ("a.wav" : String) ≠ "" := by decide
    simp only [runSaves, save_to_database_success h0 hsr hdur]
    simp [setup_database]
  · exact saved_rows_nonneg.2 fs0 true setup_database "a.wav"
      (PyVal.str "fast") (PyVal.int 3) (Or.inl (by decide))

/-- C10: `save_to_database` does not require the file to exist — the
existence check only prints a warning. For any non-empty path and valid
positive numeric arguments it returns `True` and appends a row keyed by
the path's basename, over an arbitrary file system (including one on
which no path exists); and it returns `False` exactly when the path is
empty, the sample rate or duration is non-numeric or non-positive, or a
database error occurs. -/
theorem save_does_not_require_file :
    (∀ (fs : FS) (db : DB) (fp : String) (sr dur : PyVal),
        fp ≠ "" → sr.validPos → dur.validPos →
        save_to_database fs true db fp sr dur =
          (true, ⟨db.nextId + 1,
            db.rows ++
              [⟨db.nextId, pathName fp, pyInt sr.toRat, roundTo1 dur.toRat⟩]⟩))
    ∧ (∀ (fs : FS) (dbOk : Bool) (db : DB) (fp : String) (sr dur : PyVal),
        (save_to_database fs dbOk db fp sr dur).1 = false ↔
          fp = "" ∨ ¬ sr.validPos ∨ ¬ dur.validPos ∨ dbOk = false) := by
  constructor
  · intro fs db fp sr dur h0 h1 h2
    exact save_to_database_success h0 h1 h2
  · intro fs dbOk db fp sr dur
    exact save_to_database_false_iff

/-- C10, witness: on the file system `fs0`, where `ghost.wav` does not
exist, a save still succeeds and inserts the basename-keyed row. -/
theorem save_does_not_require_file_witness :
    (fs0.pathExists "ghost.wav" = false ∧
      save_to_database fs0 true setup_database "ghost.wav"
        (PyVal.int 44100) (PyVal.int 3) =
        (true, ⟨2, [⟨1, pathName "ghost.wav", pyInt (PyVal.int 44100).toRat,
                     roundTo1 (PyVal.int 3).toRat⟩]⟩)) ∧
    ((save_to_database fs0 false setup_database "b.wav"
        (PyVal.int 1) (PyVal.int 1)).1 = false ↔
      ("b.wav" : String) = "" ∨ ¬ (PyVal.int 1).validPos ∨
        ¬ (PyVal.int 1).validPos ∨ (false : Bool) = false) := by
  refine ⟨⟨rfl, ?_⟩, ?_⟩
  · exact save_does_not_require_file.1 fs0 setup_database "ghost.wav"
      (PyVal.int 44100) (PyVal.int 3) (by decide) (by decide) (by decide)
  · exact save_does_not_require_file.2 fs0 false setup_database "b.wav"
      (PyVal.int 1) (PyVal.int 1)

/-- C3, counterexample: the database round trip does not reproduce the
inserted duration exactly. Inserting duration `0.25` succeeds, but
`view_database` shows `0.2` (the value stored after `round(duration, 1)`),
not `0.25`. -/
theorem view_rounds_inserted_duration :
    (save_to_database fs0 true setup_database "a.wav" (PyVal.int 44100)
        (PyVal.float (1/4))).1 = true ∧
    (view_database (save_to_database fs0 true setup_database "a.wav"
        (PyVal.int 44100) (PyVal.float (1/4))).2).2 =
      [("a.wav", 44100, 1/5)] ∧ ((1/5 : ℚ) ≠ 1/4) := by
  refine ⟨?_, ?_, ?_⟩
  · with_unfolding_all rfl
  · with_unfolding_all rfl
  · norm_num

/-- C3, amended: every successful `save_to_database` call appends exactly
one row, carrying the basename of the path, `int(sample_rate)` and
`round(duration, 1)`; `view_database` then lists exactly the previous
rows followed by that stored row, and `export_to_csv` outputs a CSV
containing that stored row. -/
theorem round_trip_stores_rounded (fs : FS) (dbOk : Bool) (db : DB)
    (fp : String) (sr dur : PyVal)
    (h : (save_to_database fs dbOk db fp sr dur).1 = true) :
    (view_database (save_to_database fs dbOk db fp sr dur).2).2 =
      (view_database db).2 ++
        [(pathName fp, pyInt sr.toRat, roundTo1 dur.toRat)] ∧
    ∃ csv, export_to_csv true (save_to_database fs dbOk db fp sr dur).2 =
        some csv ∧
      (pathName fp, pyInt sr.toRat, roundTo1 dur.toRat) ∈ csv.rows := by
  have hfi := @save_to_database_false_iff fs dbOk db fp sr dur
  rw [h] at hfi
  simp only [Bool.true_eq_false, false_iff, not_or, not_not,
    Bool.not_eq_false] at hfi
  obtain ⟨h0, hsr, hdur, hdb⟩ := hfi
  subst hdb
  rw [save_to_database_success h0 hsr hdur]
  constructor
  · simp [view_database]
  · have hmem : (⟨db.nextId, pathName fp, pyInt sr.toRat,
        roundTo1 dur.toRat⟩ : AudioRow) ∈
        db.rows ++ [⟨db.nextId, pathName fp, pyInt sr.toRat,
          roundTo1 dur.toRat⟩] :=
      List.mem_append_right _ (List.mem_singleton_self _)
    have hne : db.rows ++ [(⟨db.nextId, pathName fp, pyInt sr.toRat,
        roundTo1 dur.toRat⟩ : AudioRow)] ≠ [] := by simp
    refine ⟨⟨["File Name", "Sample Rate (Hz)", "Duration (seconds)"],
      (sortByName (db.rows ++ [⟨db.nextId, pathName fp, pyInt sr.toRat,
          roundTo1 dur.toRat⟩])).map
        (fun r => (r.file_name, r.sample_rate, r.duration_seconds))⟩,
      ?_, ?_⟩
    · simp [export_to_csv, hne]
    · exact List.mem_map_of_mem _ (mem_sortByName.mpr hmem)

/-- C3, witness: a concrete successful save of `("a.wav", 1, 1)` is
reproduced by `view_database` and `export_to_csv`. -/
theorem round_trip_stores_rounded_witness :
    (view_database (save_to_database fs0 true setup_database "a.wav"
        (PyVal.int 1) (PyVal.int 1)).2).2 =
      (view_database setup_database).2 ++
        [(pathName "a.wav", pyInt (PyVal.int 1).toRat,
          roundTo1 (PyVal.int 1).toRat)] ∧
    ∃ csv, export_to_csv true (save_to_database fs0 true setup_database
        "a.wav" (PyVal.int 1) (PyVal.int 1)).2 = some csv ∧
      (pathName "a.wav", pyInt (PyVal.int 1).toRat,
        roundTo1 (PyVal.int 1).toRat) ∈ csv.rows :=
  round_trip_stores_rounded fs0 true setup_database "a.wav"
    (PyVal.int 1) (PyVal.int 1) (of_decide_eq_true (by with_unfolding_all rfl))

/-- C4, counterexample: `audio_file_checker` performs no validation and
has no exception handler around `librosa.load`; on a decoder oracle that
raises for `missing.wav` (as `librosa.load` does for a missing file), the
exception propagates to the caller instead of a warning plus `None`. -/
theorem audio_file_checker_raises :
    audio_file_checker lib0 true setup_database "missing.wav" false =
      Except.error "missing.wav" := rfl

/-- C4, amended: `calculate_bpm` and `convert_audio` validate
existence / extension / permission before calling the decoder and return
`None` / `False` on failure, but `audio_file_checker` does not validate
its path and lets decoder exceptions propagate, aborting the batch. -/
theorem validated_ops_fail_closed :
    (∀ (fs : FS) (lib : AudioLib) (p : String), fs.isfile p = false →
        calculate_bpm fs lib p = none)
    ∧ (∀ (fs : FS) (lib : AudioLib) (p : String), hasAudioExt p = false →
        calculate_bpm fs lib p = none)
    ∧ (∀ (fs : FS) (lib : AudioLib) (env : ConvEnv) (fp od tf : String),
        fs.pathExists fp = false ∨ fs.isfile fp = false ∨
          fs.readable fp = false →
        convert_audio fs lib env fp od tf = false) := by
  refine ⟨?_, ?_, ?_⟩
  · intro fs lib p h
    simp [calculate_bpm, h]
  · intro fs lib p h
    simp [calculate_bpm, h]
  · intro fs lib env fp od tf h
    rcases h with h | h | h <;> simp [convert_audio, h]

/-- C4, witness: concrete failing inputs for the three validated paths. -/
theorem validated_ops_fail_closed_witness :
    calculate_bpm fs0 lib0 "ghost.wav" = none ∧
    calculate_bpm fs1 lib1 "notes.txt" = none ∧
    convert_audio fs0 lib1 ⟨true, true, true⟩ "a.wav" "out" "wav" = false :=
  ⟨validated_ops_fail_closed.1 fs0 lib0 "ghost.wav" rfl,
   validated_ops_fail_closed.2.1 fs1 lib1 "notes.txt" (by decide),
   validated_ops_fail_closed.2.2 fs0 lib1 ⟨true, true, true⟩ "a.wav" "out"
     "wav" (Or.inl rfl)⟩

/-- C5: for a file that passes the existence / extension / size checks
and loads to non-empty audio data, `calculate_bpm` returns the tempo
estimate rounded to the nearest integer — with no hypothesis on the
tempo's range, since the `(0, 300]` sanity check only prints a warning. -/
theorem calculate_bpm_rounds_regardless (fs : FS) (lib : AudioLib)
    (p : String) (n : ℕ) (h1 : fs.isfile p = true)
    (h2 : hasAudioExt p = true) (h3 : fs.getsize p ≠ 0)
    (h4 : lib.load p = some n) (h5 : n ≠ 0) :
    calculate_bpm fs lib p = some (pyRound (lib.tempo p)) := by
  simp [calculate_bpm, h1, h2, h3, h4, h5]

/-- C5, witness: on an oracle whose tempo estimate is 500 BPM — outside
the sanity range `(0, 300]` — the rounded tempo is still returned. -/
theorem calculate_bpm_rounds_regardless_witness :
    MAX_BPM < lib1.tempo "track.wav" ∧
    calculate_bpm fs1 lib1 "track.wav" =
      some (pyRound (lib1.tempo "track.wav")) :=
  ⟨by norm_num [lib1, MAX_BPM],
   calculate_bpm_rounds_regardless fs1 lib1 "track.wav" 1 rfl (by decide)
     (by decide) rfl (by decide)⟩

theorem mem_discover {fs : FS} {lib : AudioLib} {folder : String}
    {pr : String × ℤ} (h : pr ∈ discover_audio_files fs lib folder) :
    (∃ files, fs.listdir folder = some files ∧ pr.1 ∈ files ∧
      hasAudioExt pr.1 = true) ∧
    calculate_bpm fs lib (joinPath folder pr.1) = some pr.2 ∧ pr.2 ≠ 0 := by
  unfold discover_audio_files at h
  split_ifs at h
  all_goals try exact absurd h (List.not_mem_nil pr)
  cases hl : fs.listdir folder with
  | none =>
    rw [hl] at h
    exact absurd h (List.not_mem_nil pr)
  | some files =>
    rw [hl] at h
    dsimp only at h
    by_cases he : files.filter (fun f => hasAudioExt f) = []
    · rw [if_pos he] at h
      exact absurd h (List.not_mem_nil pr)
    · rw [if_neg he] at h
      obtain ⟨h1, h2, h3⟩ := mem_collectBpms h
      rw [List.mem_filter] at h1
      exact ⟨⟨files, rfl, h1.1, h1.2⟩, h2, h3⟩

/-- C6: every pair returned by `discover_audio_files` names a file of the
listed folder whose name ends, case-insensitively, in one of `.mp3`,
`.wav`, `.flac`, `.ogg`; no other file is included. -/
theorem discovery_only_audio_extensions (fs : FS) (lib : AudioLib)
    (folder : String) (pr : String × ℤ)
    (h : pr ∈ discover_audio_files fs lib folder) :
    hasAudioExt pr.1 = true ∧
      ∃ files, fs.listdir folder = some files ∧ pr.1 ∈ files := by
  obtain ⟨⟨files, hl, hmem, hext⟩, _, _⟩ := mem_discover h
  exact ⟨hext, files, hl, hmem⟩

/-- C6, witness: the pair `("a.wav", 500)` discovered in a concrete
folder has a supported extension and comes from the folder listing. -/
theorem discovery_only_audio_extensions_witness :
    hasAudioExt ("a.wav", (500 : ℤ)).1 = true ∧
      ∃ files, fs1.listdir "d" = some files ∧ ("a.wav", (500 : ℤ)).1 ∈ files :=
  discovery_only_audio_extensions fs1 lib1 "d" ("a.wav", 500)
    (of_decide_eq_true (by with_unfolding_all rfl))

/-- C7: `discover_audio_files` returns the empty list when the folder
does not exist, is not a directory, is unreadable, or contains no file
with a supported audio extension. -/
theorem discovery_empty_on_bad_folder (fs : FS) (lib : AudioLib)
    (folder : String)
    (h : fs.pathExists folder = false ∨ fs.isdir folder = false ∨
      fs.readable folder = false ∨
      ∀ files, fs.listdir folder = some files →
        files.filter (fun f => hasAudioExt f) = []) :
    discover_audio_files fs lib folder = [] := by
  unfold discover_audio_files
  rcases h with h | h | h | h
  · simp [h]
  · simp [h]
  · simp [h]
  · cases hl : fs.listdir folder with
    | none => simp [hl]
    | some files => simp [hl, h files hl]

/-- C7, witness: a nonexistent folder yields the empty result list. -/
theorem discovery_empty_on_bad_folder_witness :
    discover_audio_files fs0 lib0 "no_such_folder" = [] :=
  discovery_empty_on_bad_folder fs0 lib0 "no_such_folder" (Or.inl rfl)

/-- C8: whenever `csv_writing` writes a file, its first row is the header
`filename,bpm` followed by the result pairs; whenever `export_to_csv`
writes a file, its first row is the header
`File Name,Sample Rate (Hz),Duration (seconds)` followed by the database
rows (ordered by file name). -/
theorem csv_header_rows :
    (∀ (ioOk : Bool) (rs : List (String × ℤ)) (csv : BpmCsv),
        csv_writing ioOk rs = some csv →
        csv.header = ["filename", "bpm"] ∧ csv.rows = rs)
    ∧ (∀ (ioOk : Bool) (db : DB) (out : ExportCsv),
        export_to_csv ioOk db = some out →
        out.header = ["File Name", "Sample Rate (Hz)", "Duration (seconds)"] ∧
        out.rows = (sortByName db.rows).map
          (fun r => (r.file_name, r.sample_rate, r.duration_seconds))) := by
  constructor
  · intro ioOk rs csv h
    unfold csv_writing at h
    split_ifs at h
    injection h with h'
    subst h'
    exact ⟨rfl, rfl⟩
  · intro ioOk db out h
    unfold export_to_csv at h
    split_ifs at h
    injection h with h'
    subst h'
    exact ⟨rfl, rfl⟩

/-- C8, witness: concrete written files carry the two headers. -/
theorem csv_header_rows_witness :
    ((BpmCsv.mk ["filename", "bpm"] [("a.wav", 120)]).header =
        ["filename", "bpm"] ∧
     (BpmCsv.mk ["filename", "bpm"] [("a.wav", 120)]).rows =
        [("a.wav", 120)]) ∧
    ((ExportCsv.mk ["File Name", "Sample Rate (Hz)", "Duration (seconds)"]
        [("a.wav", 44100, 3)]).header =
        ["File Name", "Sample Rate (Hz)", "Duration (seconds)"] ∧
     (ExportCsv.mk ["File Name", "Sample Rate (Hz)", "Duration (seconds)"]
        [("a.wav", 44100, 3)]).rows =
        (sortByName (DB.mk 2 [⟨1, "a.wav", 44100, 3⟩]).rows).map
          (fun r => (r.file_name, r.sample_rate, r.duration_seconds))) := by
  constructor
  · exact csv_header_rows.1 true [("a.wav", 120)]
      ⟨["filename", "bpm"], [("a.wav", 120)]⟩ rfl
  · exact csv_header_rows.2 true ⟨2, [⟨1, "a.wav", 44100, 3⟩]⟩
      ⟨["File Name", "Sample Rate (Hz)", "Duration (seconds)"],
        [("a.wav", 44100, 3)]⟩ rfl

/-- C9: every pair collected by `discover_audio_files` carries a nonzero
BPM — the loop keeps a result only when `if bpm:` holds, so a tempo that
rounds to the integer 0 (or a failed calculation) is silently omitted. -/
theorem discovery_bpm_nonzero (fs : FS) (lib : AudioLib) (folder : String)
    (pr : String × ℤ) (h : pr ∈ discover_audio_files fs lib folder) :
    pr.2 ≠ 0 ∧ calculate_bpm fs lib (joinPath folder pr.1) = some pr.2 := by
  obtain ⟨_, hcb, hnz⟩ := mem_discover h
  exact ⟨hnz, hcb⟩

/-- C9, witness: the concrete discovered pair has nonzero BPM produced by
`calculate_bpm`. -/
theorem discovery_bpm_nonzero_witness :
    ((500 : ℤ) ≠ 0) ∧
    calculate_bpm fs1 lib1 (joinPath "d" "a.wav") = some 500 :=
  discovery_bpm_nonzero fs1 lib1 "d" ("a.wav", 500)
    (of_decide_eq_true (by with_unfolding_all rfl))

end HSound
